import Mathlib

/-!
Verification of the clip-and-brew browser recording/upload pipeline.

The definitions below are a shallow embedding of the pipeline code:
`VideoRecorder.start`/`stop` and the `StudioRecorder` wrapper, the
`uploadToLivepeer` ticket/upload/poll sequence, and the Daydream stream
creation helpers (`createDaydreamStream`, `updateDaydreamPromptsWithRetry`).
Browser side effects (the `MediaRecorder` callbacks, network responses,
the `tus`/`fetch` outcomes, wall-clock times) are passed in explicitly as
oracle parameters; the functions themselves mirror the source control flow.
-/

/-! ## Recorder: `VideoRecorder` (class in the StudioRecorder module)

`stop()` waits (bounded by a 5 s timeout) for the encoder's stop event,
computes the wall-clock duration, concatenates the buffered chunks into a
`Blob`, validates it, and best-effort repairs the WebM duration metadata. -/

/-- A binary artifact (JS `Blob`): its byte size, its MIME type tag, and the
container's duration metadata field (absent until `fixWebmDuration` writes
it).  Built in the source by `new Blob(this.chunks, { type: ... })`. -/
structure RecBlob where
  size : Nat
  mime : String
  durationMeta : Option Nat
deriving DecidableEq

/-- Concatenation of the buffered chunks, as in
`new Blob(this.chunks, { type: this.mimeType || 'video/webm' })`:
the size is the sum of the chunk sizes and no duration metadata is present.
Chunks are represented by their byte sizes; `ondataavailable` only buffers
chunks of size > 0. -/
def mkBlob (chunks : List Nat) (mimeType : String) : RecBlob :=
  { size := chunks.sum
    mime := if mimeType = "" then "video/webm" else mimeType
    durationMeta := none }

/-- Modelled from the spec: the external `fix-webm-duration` library
(`fixWebmDuration(blob, durationMs, ...)`) is not part of this repository.
Per its contract (and §4.1 of the spec, "repairs duration metadata in the
container"), it writes the supplied duration into the container metadata. -/
def fixWebmDuration (b : RecBlob) (durationMs : Nat) : RecBlob :=
  { b with durationMeta := some durationMs }

/-- The failure modes of `VideoRecorder.stop` (each a thrown `Error` in the
source, in source order). -/
inductive RecError
  | recordingNotStarted
  | stopTimeout
  | emptyRecording
  | undersizedRecording (size : Nat)
deriving DecidableEq

/-- The `RecordingResult` returned by `VideoRecorder.stop`:
`{ blob, durationMs, mimeType }`. -/
structure RecordingResult where
  blob : RecBlob
  durationMs : Nat
  mimeType : String
deriving DecidableEq

deriving instance DecidableEq for Except

/-- Result of a `stop()` call plus the one log side effect a claim mentions:
whether the `console.error('Failed to fix WebM duration (proceeding anyway)')`
branch ran. -/
structure StopOutput where
  result : Except RecError RecordingResult
  repairFailureLogged : Bool
deriving DecidableEq

/-- Shallow embedding of `VideoRecorder.stop`.  Oracle parameters:
`started` (were `this.recorder`/`this.startTime` set by `start()`),
`stopSignalled` (did the recorder fire `onstop` within the 5 s timeout),
`chunks` (sizes of the buffered data chunks), `startTime`/`stopTime`
(`Date.now()` at start and at stop), and `repairFails` (does the external
`fixWebmDuration` call throw).  The branch structure follows the source:
not-started guard, stop-timeout, `durationMs` computation, empty-chunks
check, blob construction, `< 1000` size check, then best-effort repair. -/
def VideoRecorder.stop (started stopSignalled : Bool) (chunks : List Nat)
    (mimeType : String) (startTime stopTime : Nat) (repairFails : Bool) :
    StopOutput :=
  if started = false then ⟨.error .recordingNotStarted, false⟩
  else if stopSignalled = false then ⟨.error .stopTimeout, false⟩
  else
    let durationMs := stopTime - startTime
    if chunks.length = 0 then ⟨.error .emptyRecording, false⟩
    else
      let blob := mkBlob chunks mimeType
      if blob.size < 1000 then ⟨.error (.undersizedRecording blob.size), false⟩
      else if repairFails then
        ⟨.ok ⟨blob, durationMs, mimeType⟩, true⟩
      else
        ⟨.ok ⟨fixWebmDuration blob durationMs, durationMs, mimeType⟩, false⟩

@[simp] lemma mkBlob_size (chunks : List Nat) (m : String) :
    (mkBlob chunks m).size = chunks.sum := rfl

@[simp] lemma mkBlob_durationMeta (chunks : List Nat) (m : String) :
    (mkBlob chunks m).durationMeta = none := rfl

/-- Claim C2: for every sequence of emitted non-empty fragments of total size
at least 1000 bytes, `stop()` succeeds with an artifact whose pre-repair size
(`mkBlob chunks mimeType`, the blob built before the duration fix) equals the
sum of the fragment sizes, whose duration is the measured wall-clock recording
time `stopTime - startTime`, and whose post-repair duration metadata equals
that measured duration; and whenever at least one fragment was emitted but the
concatenated artifact is smaller than 1000 bytes, `stop()` fails with the
undersized-recording error instead of producing an artifact. -/
theorem stop_artifact_size_duration (chunks : List Nat) (mimeType : String)
    (startTime stopTime : Nat)
    (hpos : ∀ c ∈ chunks, 0 < c) (hsize : 1000 ≤ chunks.sum) :
    (mkBlob chunks mimeType).size = chunks.sum ∧
    VideoRecorder.stop true true chunks mimeType startTime stopTime false =
      ⟨.ok ⟨fixWebmDuration (mkBlob chunks mimeType) (stopTime - startTime),
        stopTime - startTime, mimeType⟩, false⟩ ∧
    (fixWebmDuration (mkBlob chunks mimeType) (stopTime - startTime)).durationMeta
      = some (stopTime - startTime) ∧
    (∀ chunks2 : List Nat, chunks2 ≠ [] → chunks2.sum < 1000 →
      VideoRecorder.stop true true chunks2 mimeType startTime stopTime false =
        ⟨.error (.undersizedRecording (mkBlob chunks2 mimeType).size), false⟩) := by
  have hne : chunks.length ≠ 0 := by
    intro h
    rw [List.length_eq_zero] at h
    subst h
    simp at hsize
  refine ⟨rfl, ?_, rfl, ?_⟩
  · unfold VideoRecorder.stop
    rw [if_neg (by decide), if_neg (by decide), if_neg hne,
      if_neg (show ¬((mkBlob chunks mimeType).size < 1000) by simp; omega),
      if_neg (by decide)]
  · intro chunks2 hne2 hlt2
    unfold VideoRecorder.stop
    rw [if_neg (by decide), if_neg (by decide),
      if_neg (show ¬(chunks2.length = 0) by
        simpa [List.length_eq_zero] using hne2),
      if_pos (show (mkBlob chunks2 mimeType).size < 1000 by simp; omega)]

/-- Witness for C2 at a concrete input: a single 2048-byte fragment, recording
from time 5 to 7205 (7.2 s wall clock), plus the undersized branch at a single
12-byte fragment. -/
theorem stop_artifact_size_duration_witness :
    (∀ c ∈ [2048], 0 < c) ∧ 1000 ≤ [2048].sum ∧
    ((mkBlob [2048] "video/webm").size = [2048].sum ∧
     VideoRecorder.stop true true [2048] "video/webm" 5 7205 false =
       ⟨.ok ⟨fixWebmDuration (mkBlob [2048] "video/webm") (7205 - 5),
         7205 - 5, "video/webm"⟩, false⟩ ∧
     (fixWebmDuration (mkBlob [2048] "video/webm") (7205 - 5)).durationMeta
       = some (7205 - 5) ∧
     (∀ chunks2 : List Nat, chunks2 ≠ [] → chunks2.sum < 1000 →
       VideoRecorder.stop true true chunks2 "video/webm" 5 7205 false =
         ⟨.error (.undersizedRecording (mkBlob chunks2 "video/webm").size),
           false⟩)) :=
  ⟨by decide, by decide,
    stop_artifact_size_duration [2048] "video/webm" 5 7205 (by decide) (by decide)⟩

/-- Claim C6: if zero fragments were emitted between `start()` and `stop()`,
`stop()` fails with the empty-recording error ("No video data recorded") and
no artifact is produced (the result carries no `RecordingResult`). -/
theorem stop_empty_fails (mimeType : String) (startTime stopTime : Nat)
    (repairFails : Bool) :
    VideoRecorder.stop true true [] mimeType startTime stopTime repairFails =
      ⟨.error .emptyRecording, false⟩ := by
  unfold VideoRecorder.stop
  simp

/-- Claim C8: the duration-metadata repair is best-effort.  When the external
`fixWebmDuration` call fails on an otherwise valid recording, the failure is
logged (`repairFailureLogged = true`, the `console.error` catch branch) and
`stop()` still returns the unrepaired artifact — the original concatenated
blob (no duration metadata written) together with the measured duration —
rather than failing the call. -/
theorem stop_repair_best_effort (chunks : List Nat) (mimeType : String)
    (startTime stopTime : Nat) (hsize : 1000 ≤ chunks.sum) :
    VideoRecorder.stop true true chunks mimeType startTime stopTime true =
      ⟨.ok ⟨mkBlob chunks mimeType, stopTime - startTime, mimeType⟩, true⟩ ∧
    (mkBlob chunks mimeType).durationMeta = none := by
  have hne : chunks.length ≠ 0 := by
    intro h
    rw [List.length_eq_zero] at h
    subst h
    simp at hsize
  refine ⟨?_, rfl⟩
  unfold VideoRecorder.stop
  rw [if_neg (by decide), if_neg (by decide), if_neg hne,
    if_neg (show ¬((mkBlob chunks mimeType).size < 1000) by simp; omega),
    if_pos (by decide)]

/-- Witness for C8 at a concrete input: two fragments of 600 and 500 bytes,
recording lasting 3000 ms, repair failing. -/
theorem stop_repair_best_effort_witness :
    1000 ≤ [600, 500].sum ∧
    (VideoRecorder.stop true true [600, 500] "video/webm" 100 3100 true =
       ⟨.ok ⟨mkBlob [600, 500] "video/webm", 3100 - 100, "video/webm"⟩, true⟩ ∧
     (mkBlob [600, 500] "video/webm").durationMeta = none) :=
  ⟨by decide,
    stop_repair_best_effort [600, 500] "video/webm" 100 3100 (by decide)⟩

/-! ## StudioRecorder component state (`startRecording`)

The component keeps `recorderRef`, `recordStartTimeRef`, `isRecordingRef`
and `isProcessingRef` refs.  `startRecording` refuses to start while a
recording is active or a previous one is still processing. -/

/-- The component refs: the `VideoRecorder` instance (identified by an id),
the record start time, and the two busy flags. -/
structure StudioState where
  recorder : Option Nat
  recordStartTime : Option Nat
  isRecording : Bool
  isProcessing : Bool
deriving DecidableEq

/-- Caller-visible callbacks fired by `startRecording`, in order. -/
inductive RecCallback
  | onProgressRecording
  | onRecordingStart
  | onError (msg : String)
deriving DecidableEq

/-- How a `startRecording` call returned: the two warn-and-return guards,
the caught-error path (which invokes `onError`), or a successful start. -/
inductive StartOutcome
  | alreadyRecording
  | stillProcessing
  | failed (msg : String)
  | started
deriving DecidableEq

/-- Environment of one `startRecording` call: whether a `<video>`/`<canvas>`
child exists, whether `captureStream` is supported on it, whether
`recorder.start()` rejected (`captureStream` returned null, or no supported
MIME type) and with which message, the identity of the freshly constructed
`VideoRecorder`, and `Date.now()`. -/
structure StartEnv where
  hasElement : Bool
  captureSupported : Bool
  startError : Option String
  newRecorderId : Nat
  now : Nat
deriving DecidableEq

/-- Shallow embedding of `StudioRecorder.startRecording`.  Mirrors the source:
`if (isRecordingRef.current) { warn; return }`,
`if (isProcessingRef.current) { warn; return }`, then inside try/catch: find
the element, check support, construct and start a recorder, set the refs, and
fire `onProgress({phase: 'recording'})` then `onRecordingStart()`; on a thrown
error the catch resets the refs and fires `onError`. -/
def startRecording (s : StudioState) (env : StartEnv) :
    StudioState × StartOutcome × List RecCallback :=
  if s.isRecording then (s, .alreadyRecording, [])
  else if s.isProcessing then (s, .stillProcessing, [])
  else if env.hasElement = false then
    (⟨none, none, false, s.isProcessing⟩,
      .failed "No video or canvas element found in StudioRecorder children",
      [.onError "No video or canvas element found in StudioRecorder children"])
  else if env.captureSupported = false then
    (⟨none, none, false, s.isProcessing⟩,
      .failed "Video capture not supported on this browser",
      [.onError "Video capture not supported on this browser"])
  else
    match env.startError with
    | some msg =>
        (⟨none, none, false, s.isProcessing⟩, .failed msg, [.onError msg])
    | none =>
        (⟨some env.newRecorderId, some env.now, true, s.isProcessing⟩,
          .started, [.onProgressRecording, .onRecordingStart])

/-- Claim C3: after a successful `startRecording`, the state holds exactly one
active encoder (the freshly created recorder, with `isRecording` set), and a
second `startRecording` without an intervening stop leaves the state fully
unchanged — the first recording continues with the same recorder, no second
recorder is created or queued, no callbacks fire — and returns through the
rejection path (`alreadyRecording`, the `console.warn('Recording already in
progress')` early return). -/
theorem start_twice_single_encoder (s : StudioState) (env env2 : StartEnv)
    (h : (startRecording s env).2.1 = .started) :
    (startRecording s env).1.recorder = some env.newRecorderId ∧
    (startRecording s env).1.isRecording = true ∧
    startRecording (startRecording s env).1 env2 =
      ((startRecording s env).1, .alreadyRecording, []) := by
  unfold startRecording at h ⊢
  by_cases h1 : s.isRecording
  · simp [h1] at h
  by_cases h2 : s.isProcessing
  · simp [h1, h2] at h
  by_cases h3 : env.hasElement = false
  · simp [h1, h2, h3] at h
  by_cases h4 : env.captureSupported = false
  · simp [h1, h2, h3, h4] at h
  cases h5 : env.startError with
  | some msg => simp [h1, h2, h3, h4, h5] at h
  | none => simp [h1, h2, h3, h4, h5]

/-- Witness for C3 at a concrete input: idle initial state, a capture-capable
surface, and a second call in the same environment. -/
theorem start_twice_single_encoder_witness :
    (startRecording ⟨none, none, false, false⟩ ⟨true, true, none, 7, 1234⟩).2.1
        = .started ∧
    ((startRecording ⟨none, none, false, false⟩
        ⟨true, true, none, 7, 1234⟩).1.recorder = some 7 ∧
      (startRecording ⟨none, none, false, false⟩
        ⟨true, true, none, 7, 1234⟩).1.isRecording = true ∧
      startRecording
          (startRecording ⟨none, none, false, false⟩
            ⟨true, true, none, 7, 1234⟩).1 ⟨true, true, none, 7, 1234⟩ =
        ((startRecording ⟨none, none, false, false⟩
            ⟨true, true, none, 7, 1234⟩).1, .alreadyRecording, [])) :=
  ⟨by decide,
    start_twice_single_encoder ⟨none, none, false, false⟩
      ⟨true, true, none, 7, 1234⟩ ⟨true, true, none, 7, 1234⟩ (by decide)⟩

/-! ## Uploader: `uploadToLivepeer`

Requests an upload ticket (`studio-request-upload`), uploads the blob by TUS
(falling back to a direct PUT), then polls `studio-asset-status` once a
second up to 300 attempts. -/

/-- The `studio-request-upload` response (`uploadData`): asset id, optional
playback id, optional TUS (resumable) endpoint, optional direct-PUT URL and
raw file URL.  The source guards on `!uploadData?.assetId`, so the asset id
is kept optional here. -/
structure UploadTicket where
  assetId : Option String
  playbackId : Option String
  tusEndpoint : Option String
  uploadUrl : Option String
  rawUploadedFileUrl : Option String
deriving DecidableEq

/-- The `studio-asset-status` response (`assetData`): all fields the source
reads — `status`, `playbackId`, `downloadUrl`, `error?.message`, `progress`. -/
structure AssetStatus where
  status : Option String
  playbackId : Option String
  downloadUrl : Option String
  errorMessage : Option String
  progress : Option Rat
deriving DecidableEq

/-- The distinct `throw new Error(...)` sites of `uploadToLivepeer`, in
source order: ticket-request failure, missing asset id, a failed PUT
(`Upload failed: <status> - <text>`), no upload method left
(`Upload failed`), a failed status check, processing failure
(`Video processing failed: <reason>...`), the 300-attempt timeout, and a
ready asset without a playback id. -/
inductive UploadError
  | ticketRequest (msg : String)
  | missingAssetId
  | uploadPut (status : Nat) (text : String)
  | uploadNoMethod
  | statusCheck (msg : String)
  | processingFailed (reason : String)
  | processingTimeout
  | missingPlaybackId
deriving DecidableEq

/-- Which of the error sites are the `UploadError` of the spec (a failure of
the upload transfer itself, §4.2): the failed direct PUT and the
both-methods-unavailable `throw new Error('Upload failed')`. -/
def UploadError.isUploadFailure : UploadError → Bool
  | .uploadPut _ _ => true
  | .uploadNoMethod => true
  | _ => false

/-- Payload handed to the `onUploadDone` callback on the first observed
`processing` status: `{assetId: uploadData.assetId, playbackId:
uploadData.playbackId, rawUploadedFileUrl: uploadData.rawUploadedFileUrl}`
(all taken from the upload ticket). -/
structure UploadDoneResult where
  assetId : String
  playbackId : Option String
  rawUploadedFileUrl : Option String
deriving DecidableEq

/-- The `UploadResult` the function resolves with: the ticket's asset id,
the `playbackId` and `downloadUrl` of the final (`ready`) status response,
and the ticket's raw file URL. -/
structure UploadResult where
  assetId : String
  playbackId : String
  downloadUrl : Option String
  rawUploadedFileUrl : Option String
deriving DecidableEq

/-- Outcome of the `tus.Upload` attempt: either `onSuccess` after a list of
`onProgress (bytesUploaded, bytesTotal)` events, or `onError` after some
events. -/
inductive TusOutcome
  | success (events : List (Nat × Nat))
  | failure (events : List (Nat × Nat)) (msg : String)
deriving DecidableEq

/-- Outcome of the fallback `fetch(uploadUrl, { method: 'PUT', ... })`. -/
inductive PutOutcome
  | ok
  | httpError (status : Nat) (text : String)
deriving DecidableEq

/-- One `onProgress` report (`UploadProgress` in the source): phase, step
text, optional numeric progress. -/
structure UploadProgress where
  phase : String
  step : Option String
  progress : Option Rat
deriving DecidableEq

/-- The `onProgress({phase: 'uploading', step: 'Uploading...'})` report that
precedes each transfer attempt. -/
def uploadingBanner : UploadProgress := ⟨"uploading", some "Uploading...", none⟩

/-- Byte-level progress reports forwarded from the TUS `onProgress` callback:
`{phase: 'uploading', step: 'Uploading...', progress: bytesUploaded/bytesTotal}`. -/
def tusProgressReports (events : List (Nat × Nat)) : List UploadProgress :=
  events.map fun e => ⟨"uploading", some "Uploading...", some ((e.1 : Rat) / (e.2 : Rat))⟩

/-- Output of the transfer step (source step 2): its result, whether the TUS
upload and the PUT fallback were attempted, and the `onProgress` reports it
emitted. -/
structure UploadStepOut where
  result : Except UploadError Unit
  tusAttempted : Bool
  putAttempted : Bool
  reports : List UploadProgress
deriving DecidableEq

/-- The `if (!uploaded && uploadData?.uploadUrl)` fallback: a direct PUT of
the blob.  A non-ok response throws `Upload failed: <status> - <text>`; if no
`uploadUrl` is offered either, control falls through to
`if (!uploaded) throw new Error('Upload failed')`. -/
def putStep (ticket : UploadTicket) (put : PutOutcome) (tusAttempted : Bool)
    (reportsSoFar : List UploadProgress) : UploadStepOut :=
  match ticket.uploadUrl with
  | some _ =>
    match put with
    | .ok => ⟨.ok (), tusAttempted, true, reportsSoFar ++ [uploadingBanner]⟩
    | .httpError st txt =>
        ⟨.error (.uploadPut st txt), tusAttempted, true,
          reportsSoFar ++ [uploadingBanner]⟩
  | none => ⟨.error .uploadNoMethod, tusAttempted, false, reportsSoFar⟩

/-- Source step 2: `if (uploadData.tusEndpoint)` attempt the TUS resumable
upload (emitting the banner and one byte-level report per `onProgress`
event); a TUS failure is caught (`uploaded` stays false) and control falls
through to the PUT fallback. -/
def uploadStep (ticket : UploadTicket) (tus : TusOutcome) (put : PutOutcome) :
    UploadStepOut :=
  match ticket.tusEndpoint with
  | some _ =>
    match tus with
    | .success evs => ⟨.ok (), true, false, uploadingBanner :: tusProgressReports evs⟩
    | .failure evs _msg =>
        putStep ticket put true (uploadingBanner :: tusProgressReports evs)
  | none => putStep ticket put false []

/-- The `maxAttempts = 300` bound — 5 minutes at one poll per second. -/
def maxPollAttempts : Nat := 300

/-- The fixed poll interval (`setTimeout(resolve, 1000)`), in milliseconds. -/
def pollIntervalMs : Nat := 1000

/-- How the `while (attempts < maxAttempts)` loop was left: by a thrown
error, or normally (break on `ready`, or attempts exhausted) with the last
`assetData` seen. -/
inductive LoopExit
  | errored (e : UploadError)
  | finished (lastData : Option AssetStatus)
deriving DecidableEq

/-- The `onUploadDone` payload, built from the ticket. -/
def mkUploadDone (ticket : UploadTicket) (assetId : String) : UploadDoneResult :=
  ⟨assetId, ticket.playbackId, ticket.rawUploadedFileUrl⟩

/-- Shallow embedding of the status-poll loop (source step 3).  `responses i`
is the outcome of the i-th `studio-asset-status` invocation; `fuel` is
`maxAttempts - attempt`.  Each iteration: an invoke error throws; otherwise,
on the first `processing` status the `onUploadDone` callback fires (recorded
together with the attempt index at which it fired); `ready` breaks out of the
loop; `failed` (or `error`) throws `processingFailed` with
`error?.message ?? 'Unknown processing error'`; anything else sleeps and
retries.  Returns the loop exit, the number of polls performed, and the
`onUploadDone` events. -/
def pollLoop (ticket : UploadTicket) (assetId : String)
    (responses : Nat → Except String AssetStatus) :
    Nat → Nat → Bool → Option AssetStatus →
    LoopExit × Nat × List (Nat × UploadDoneResult)
  | _, 0, _, lastData => (.finished lastData, 0, [])
  | attempt, fuel + 1, uploadDoneCalled, _ =>
    match responses attempt with
    | .error msg => (.errored (.statusCheck msg), 1, [])
    | .ok a =>
      let evs := if uploadDoneCalled = false ∧ a.status = some "processing"
        then [(attempt, mkUploadDone ticket assetId)] else []
      let udc := if uploadDoneCalled = false ∧ a.status = some "processing"
        then true else uploadDoneCalled
      if a.status = some "ready" then (.finished (some a), 1, evs)
      else if a.status = some "failed" ∨ a.status = some "error" then
        (.errored (.processingFailed (a.errorMessage.getD "Unknown processing error")),
          1, evs)
      else
        let r := pollLoop ticket assetId responses (attempt + 1) fuel udc (some a)
        (r.1, r.2.1 + 1, evs ++ r.2.2)

/-- Result of the whole polling phase: the final result, how many polls were
performed, and the `onUploadDone` events (attempt index, payload). -/
structure PollOut where
  result : Except UploadError UploadResult
  polls : Nat
  uploadDoneEvents : List (Nat × UploadDoneResult)
deriving DecidableEq

/-- The polling phase: run the loop from attempt 0 with 300 attempts, then
the post-loop checks of the source — `if (assetData?.status !== 'ready')`
throws the timeout error, `if (!assetData?.playbackId)` throws the
missing-playback-id error, otherwise resolve with the `UploadResult`. -/
def pollPhase (ticket : UploadTicket) (assetId : String)
    (responses : Nat → Except String AssetStatus) : PollOut :=
  match pollLoop ticket assetId responses 0 maxPollAttempts false none with
  | (.errored e, n, evs) => ⟨.error e, n, evs⟩
  | (.finished lastData, n, evs) =>
    match lastData with
    | none => ⟨.error .processingTimeout, n, evs⟩
    | some a =>
      if a.status ≠ some "ready" then ⟨.error .processingTimeout, n, evs⟩
      else
        match a.playbackId with
        | none => ⟨.error .missingPlaybackId, n, evs⟩
        | some pid =>
            ⟨.ok ⟨assetId, pid, a.downloadUrl, ticket.rawUploadedFileUrl⟩, n, evs⟩

/-- Observable output of a whole `uploadToLivepeer` call. -/
structure UploadOut where
  result : Except UploadError UploadResult
  tusAttempted : Bool
  putAttempted : Bool
  reports : List UploadProgress
  polls : Nat
  uploadDoneEvents : List (Nat × UploadDoneResult)
deriving DecidableEq

/-- Shallow embedding of `uploadToLivepeer`.  `ticketResult` is the outcome
of the `studio-request-upload` invocation, `tus`/`put` the transfer oracle
outcomes, `responses` the status-poll responses.  Mirrors the source: a
ticket-request error throws, a missing `assetId` throws, then the transfer
step (any error propagates), then the polling phase.  (The per-poll
`onProgress` reports and the final `complete` report are not tracked; no
claim concerns them.) -/
def uploadToLivepeer (ticketResult : Except String UploadTicket)
    (tus : TusOutcome) (put : PutOutcome)
    (responses : Nat → Except String AssetStatus) : UploadOut :=
  match ticketResult with
  | .error msg => ⟨.error (.ticketRequest msg), false, false, [], 0, []⟩
  | .ok ticket =>
    match ticket.assetId with
    | none => ⟨.error .missingAssetId, false, false, [], 0, []⟩
    | some assetId =>
      let step := uploadStep ticket tus put
      match step.result with
      | .error e => ⟨.error e, step.tusAttempted, step.putAttempted, step.reports, 0, []⟩
      | .ok _ =>
        let p := pollPhase ticket assetId responses
        ⟨p.result, step.tusAttempted, step.putAttempted, step.reports,
          p.polls, p.uploadDoneEvents⟩

/-- The processing-status enum of the spec's data model (§3):
`{queued, processing, ready, failed}`. -/
inductive PStatus
  | queued
  | processing
  | ready
  | failed
deriving DecidableEq

/-- The wire string of each status value. -/
def PStatus.toStr : PStatus → String
  | .queued => "queued"
  | .processing => "processing"
  | .ready => "ready"
  | .failed => "failed"

/-- A status response that carries a non-terminal status of the spec's enum
(neither `ready` nor `failed`). -/
def specNonTerminal (a : AssetStatus) : Prop :=
  ∃ st : PStatus, st ≠ PStatus.ready ∧ st ≠ PStatus.failed ∧
    a.status = some st.toStr

lemma specNonTerminal_strings {a : AssetStatus} (h : specNonTerminal a) :
    a.status = some "queued" ∨ a.status = some "processing" := by
  obtain ⟨st, hr, hf, hs⟩ := h
  cases st with
  | queued => exact Or.inl hs
  | processing => exact Or.inr hs
  | ready => exact absurd rfl hr
  | failed => exact absurd rfl hf

/-! ### Poll-loop stepping lemmas -/

lemma pollLoop_step_queued {ticket : UploadTicket} {aid : String}
    {responses : Nat → Except String AssetStatus} {attempt : Nat}
    {a : AssetStatus} (h : responses attempt = .ok a)
    (hs : a.status = some "queued") (fuel : Nat) (udc : Bool)
    (lastData : Option AssetStatus) :
    pollLoop ticket aid responses attempt (fuel + 1) udc lastData =
      ((pollLoop ticket aid responses (attempt + 1) fuel udc (some a)).1,
       (pollLoop ticket aid responses (attempt + 1) fuel udc (some a)).2.1 + 1,
       (pollLoop ticket aid responses (attempt + 1) fuel udc (some a)).2.2) := by
  simp only [pollLoop, h]
  simp [hs]

lemma pollLoop_step_processing {ticket : UploadTicket} {aid : String}
    {responses : Nat → Except String AssetStatus} {attempt : Nat}
    {a : AssetStatus} (h : responses attempt = .ok a)
    (hs : a.status = some "processing") (fuel : Nat) (udc : Bool)
    (lastData : Option AssetStatus) :
    pollLoop ticket aid responses attempt (fuel + 1) udc lastData =
      ((pollLoop ticket aid responses (attempt + 1) fuel true (some a)).1,
       (pollLoop ticket aid responses (attempt + 1) fuel true (some a)).2.1 + 1,
       (if udc = false then [(attempt, mkUploadDone ticket aid)] else []) ++
         (pollLoop ticket aid responses (attempt + 1) fuel true (some a)).2.2) := by
  simp only [pollLoop, h]
  cases udc <;> simp [hs]

lemma pollLoop_step_ready {ticket : UploadTicket} {aid : String}
    {responses : Nat → Except String AssetStatus} {attempt : Nat}
    {a : AssetStatus} (h : responses attempt = .ok a)
    (hs : a.status = some "ready") (fuel : Nat) (udc : Bool)
    (lastData : Option AssetStatus) :
    pollLoop ticket aid responses attempt (fuel + 1) udc lastData =
      (.finished (some a), 1, []) := by
  simp only [pollLoop, h]
  simp [hs]

lemma pollLoop_step_failed {ticket : UploadTicket} {aid : String}
    {responses : Nat → Except String AssetStatus} {attempt : Nat}
    {a : AssetStatus} (h : responses attempt = .ok a)
    (hs : a.status = some "failed") (fuel : Nat) (udc : Bool)
    (lastData : Option AssetStatus) :
    pollLoop ticket aid responses attempt (fuel + 1) udc lastData =
      (.errored (.processingFailed (a.errorMessage.getD "Unknown processing error")),
        1, []) := by
  simp only [pollLoop, h]
  simp [hs]

/-- Running the loop over responses that are all available and non-terminal
consumes all the fuel, performing one poll per unit of fuel, and leaves a
non-terminal last response. -/
lemma pollLoop_nonterminal (ticket : UploadTicket) (aid : String)
    (responses : Nat → Except String AssetStatus) :
    ∀ fuel attempt (udc : Bool) (lastData : Option AssetStatus),
    (∀ i, i < fuel → ∃ a, responses (attempt + i) = .ok a ∧ specNonTerminal a) →
    ∃ last2 evs,
      pollLoop ticket aid responses attempt fuel udc lastData =
        (.finished last2, fuel, evs) ∧
      (fuel = 0 → last2 = lastData) ∧
      (0 < fuel → ∃ a, last2 = some a ∧ specNonTerminal a) := by
  intro fuel
  induction fuel with
  | zero =>
    intro attempt udc lastData _
    exact ⟨lastData, [], rfl, fun _ => rfl, fun h => absurd h (by omega)⟩
  | succ fuel ih =>
    intro attempt udc lastData h
    obtain ⟨a, ha, hnt⟩ := h 0 (by omega)
    rw [Nat.add_zero] at ha
    have hrest : ∀ i, i < fuel →
        ∃ a2, responses (attempt + 1 + i) = .ok a2 ∧ specNonTerminal a2 := by
      intro i hi
      have := h (i + 1) (by omega)
      rwa [show attempt + (i + 1) = attempt + 1 + i by omega] at this
    rcases specNonTerminal_strings hnt with hq | hp
    · obtain ⟨last2, evs, heq, h0, hpos⟩ := ih (attempt + 1) udc (some a) hrest
      refine ⟨last2, evs, ?_, by omega, ?_⟩
      · rw [pollLoop_step_queued ha hq, heq]
      · intro _
        rcases Nat.eq_zero_or_pos fuel with hz | hgt
        · exact ⟨a, by rw [h0 hz], hnt⟩
        · exact hpos hgt
    · obtain ⟨last2, evs, heq, h0, hpos⟩ := ih (attempt + 1) true (some a) hrest
      refine ⟨last2,
        (if udc = false then [(attempt, mkUploadDone ticket aid)] else []) ++ evs,
        ?_, by omega, ?_⟩
      · rw [pollLoop_step_processing ha hp, heq]
      · intro _
        rcases Nat.eq_zero_or_pos fuel with hz | hgt
        · exact ⟨a, by rw [h0 hz], hnt⟩
        · exact hpos hgt

/-- If the first `k` responses are non-terminal and the `k`-th (0-based) is a
`failed` response carrying a reason, the loop throws `processingFailed` with
that reason after exactly `k + 1` polls. -/
lemma pollLoop_failed_at (ticket : UploadTicket) (aid : String)
    (responses : Nat → Except String AssetStatus) (reason : String) :
    ∀ k fuel attempt (udc : Bool) (lastData : Option AssetStatus), k < fuel →
    (∀ i, i < k → ∃ a, responses (attempt + i) = .ok a ∧ specNonTerminal a) →
    (∃ a, responses (attempt + k) = .ok a ∧ a.status = some "failed" ∧
      a.errorMessage = some reason) →
    ∃ evs, pollLoop ticket aid responses attempt fuel udc lastData =
      (.errored (.processingFailed reason), k + 1, evs) := by
  intro k
  induction k with
  | zero =>
    intro fuel attempt udc lastData hk _ hfail
    obtain ⟨a, ha, hs, hmsg⟩ := hfail
    rw [Nat.add_zero] at ha
    obtain ⟨fuel2, rfl⟩ : ∃ f2, fuel = f2 + 1 :=
      ⟨fuel - 1, by omega⟩
    refine ⟨[], ?_⟩
    rw [pollLoop_step_failed ha hs, hmsg]
    rfl
  | succ k ih =>
    intro fuel attempt udc lastData hk hpre hfail
    obtain ⟨fuel2, rfl⟩ : ∃ f2, fuel = f2 + 1 := ⟨fuel - 1, by omega⟩
    obtain ⟨a, ha, hnt⟩ := hpre 0 (by omega)
    rw [Nat.add_zero] at ha
    have hpre2 : ∀ i, i < k →
        ∃ a2, responses (attempt + 1 + i) = .ok a2 ∧ specNonTerminal a2 := by
      intro i hi
      have := hpre (i + 1) (by omega)
      rwa [show attempt + (i + 1) = attempt + 1 + i by omega] at this
    have hfail2 : ∃ a2, responses (attempt + 1 + k) = .ok a2 ∧
        a2.status = some "failed" ∧ a2.errorMessage = some reason := by
      obtain ⟨a2, h1, h2, h3⟩ := hfail
      exact ⟨a2, by rwa [show attempt + 1 + k = attempt + (k + 1) by omega], h2, h3⟩
    rcases specNonTerminal_strings hnt with hq | hp
    · obtain ⟨evs, heq⟩ := ih fuel2 (attempt + 1) udc (some a) (by omega) hpre2 hfail2
      exact ⟨evs, by rw [pollLoop_step_queued ha hq, heq]⟩
    · obtain ⟨evs, heq⟩ := ih fuel2 (attempt + 1) true (some a) (by omega) hpre2 hfail2
      refine ⟨(if udc = false then [(attempt, mkUploadDone ticket aid)] else []) ++ evs, ?_⟩
      rw [pollLoop_step_processing ha hp, heq]

/-- When the ticket request yields an asset id and the transfer step
succeeds, `uploadToLivepeer` is the polling phase (plus the transfer-step
observables). -/
lemma uploadToLivepeer_poll (ticket : UploadTicket) (tus : TusOutcome)
    (put : PutOutcome) (responses : Nat → Except String AssetStatus)
    (aid : String) (ha : ticket.assetId = some aid)
    (hstep : (uploadStep ticket tus put).result = .ok ()) :
    uploadToLivepeer (.ok ticket) tus put responses =
      ⟨(pollPhase ticket aid responses).result,
        (uploadStep ticket tus put).tusAttempted,
        (uploadStep ticket tus put).putAttempted,
        (uploadStep ticket tus put).reports,
        (pollPhase ticket aid responses).polls,
        (pollPhase ticket aid responses).uploadDoneEvents⟩ := by
  unfold uploadToLivepeer
  simp only [ha, hstep]

/-- Claim C1: for every scripted poll-status sequence
`[queued, processing, processing, ready]` (arbitrary response records with
those statuses, polled after a successful ticket request and transfer), the
uploader fires the `onUploadDone` intermediate-completion callback exactly
once — at attempt index 1, the first observed `processing` — and resolves
with the `playbackId` carried by the `ready` response, after exactly the
four polls of the script. -/
theorem uploader_scripted_resolves (ticket : UploadTicket) (tus : TusOutcome)
    (put : PutOutcome) (responses : Nat → Except String AssetStatus)
    (aid pid : String) (r0 r1 r2 r3 : AssetStatus)
    (ha : ticket.assetId = some aid)
    (hstep : (uploadStep ticket tus put).result = .ok ())
    (h0 : responses 0 = .ok r0) (hs0 : r0.status = some "queued")
    (h1 : responses 1 = .ok r1) (hs1 : r1.status = some "processing")
    (h2 : responses 2 = .ok r2) (hs2 : r2.status = some "processing")
    (h3 : responses 3 = .ok r3) (hs3 : r3.status = some "ready")
    (hpid : r3.playbackId = some pid) :
    (uploadToLivepeer (.ok ticket) tus put responses).result =
      .ok ⟨aid, pid, r3.downloadUrl, ticket.rawUploadedFileUrl⟩ ∧
    (uploadToLivepeer (.ok ticket) tus put responses).uploadDoneEvents =
      [(1, mkUploadDone ticket aid)] ∧
    (uploadToLivepeer (.ok ticket) tus put responses).polls = 4 := by
  have l3 : pollLoop ticket aid responses 3 297 true (some r2) =
      (.finished (some r3), 1, []) := by
    rw [show (297 : Nat) = 296 + 1 from rfl]
    exact pollLoop_step_ready h3 hs3 296 true (some r2)
  have l2 : pollLoop ticket aid responses 2 298 true (some r1) =
      (.finished (some r3), 2, []) := by
    rw [show (298 : Nat) = 297 + 1 from rfl,
      pollLoop_step_processing h2 hs2 297 true (some r1)]
    norm_num [l3]
  have l1 : pollLoop ticket aid responses 1 299 false (some r0) =
      (.finished (some r3), 3, [(1, mkUploadDone ticket aid)]) := by
    rw [show (299 : Nat) = 298 + 1 from rfl,
      pollLoop_step_processing h1 hs1 298 false (some r0)]
    norm_num [l2]
  have l0 : pollLoop ticket aid responses 0 maxPollAttempts false none =
      (.finished (some r3), 4, [(1, mkUploadDone ticket aid)]) := by
    rw [show maxPollAttempts = 299 + 1 from rfl,
      pollLoop_step_queued h0 hs0 299 false none]
    norm_num [l1]
  have hpoll : pollPhase ticket aid responses =
      ⟨.ok ⟨aid, pid, r3.downloadUrl, ticket.rawUploadedFileUrl⟩, 4,
        [(1, mkUploadDone ticket aid)]⟩ := by
    unfold pollPhase
    rw [l0]
    simp [hs3, hpid]
  rw [uploadToLivepeer_poll ticket tus put responses aid ha hstep, hpoll]
  exact ⟨rfl, rfl, rfl⟩

/-- Witness for C1 at concrete inputs: a ticket with asset id "a1", a
successful TUS transfer, and the scripted four responses with playback id
"pb" on the `ready` response. -/
theorem uploader_scripted_resolves_witness :
    ((⟨some "a1", some "pb0", some "tus", none, none⟩ : UploadTicket).assetId
        = some "a1") ∧
    ((uploadStep ⟨some "a1", some "pb0", some "tus", none, none⟩
        (.success []) .ok).result = .ok ()) ∧
    ((uploadToLivepeer (.ok ⟨some "a1", some "pb0", some "tus", none, none⟩)
        (.success []) .ok
        (fun i => .ok (if i = 0 then ⟨some "queued", none, none, none, none⟩
          else if i = 3 then ⟨some "ready", some "pb", none, none, none⟩
          else ⟨some "processing", none, none, none, none⟩))).result =
      .ok ⟨"a1", "pb", none, none⟩ ∧
    (uploadToLivepeer (.ok ⟨some "a1", some "pb0", some "tus", none, none⟩)
        (.success []) .ok
        (fun i => .ok (if i = 0 then ⟨some "queued", none, none, none, none⟩
          else if i = 3 then ⟨some "ready", some "pb", none, none, none⟩
          else ⟨some "processing", none, none, none, none⟩))).uploadDoneEvents =
      [(1, mkUploadDone ⟨some "a1", some "pb0", some "tus", none, none⟩ "a1")] ∧
    (uploadToLivepeer (.ok ⟨some "a1", some "pb0", some "tus", none, none⟩)
        (.success []) .ok
        (fun i => .ok (if i = 0 then ⟨some "queued", none, none, none, none⟩
          else if i = 3 then ⟨some "ready", some "pb", none, none, none⟩
          else ⟨some "processing", none, none, none, none⟩))).polls = 4) :=
  ⟨rfl, rfl,
    uploader_scripted_resolves _ _ _ _ "a1" "pb"
      ⟨some "queued", none, none, none, none⟩
      ⟨some "processing", none, none, none, none⟩
      ⟨some "processing", none, none, none, none⟩
      ⟨some "ready", some "pb", none, none, none⟩
      rfl rfl (by norm_num) rfl (by norm_num) rfl (by norm_num) rfl
      (by norm_num) rfl rfl⟩

/-- Claim C4: for every poll-status sequence that never reaches a terminal
state (`ready` or `failed` in the spec's status enum) within 300 polls, the
uploader rejects with the processing-timeout error after the 300th poll and
performs no further status polls (`polls = 300` exactly). -/
theorem uploader_timeout_after_300 (ticket : UploadTicket) (tus : TusOutcome)
    (put : PutOutcome) (responses : Nat → Except String AssetStatus)
    (aid : String)
    (ha : ticket.assetId = some aid)
    (hstep : (uploadStep ticket tus put).result = .ok ())
    (hnt : ∀ i, i < 300 → ∃ a, responses i = .ok a ∧ specNonTerminal a) :
    (uploadToLivepeer (.ok ticket) tus put responses).result =
      .error .processingTimeout ∧
    (uploadToLivepeer (.ok ticket) tus put responses).polls = 300 := by
  obtain ⟨last2, evs, heq, _, hpos⟩ :=
    pollLoop_nonterminal ticket aid responses 300 0 false none
      (by intro i hi; simpa using hnt i hi)
  obtain ⟨a, rfl, hnt2⟩ := hpos (by omega)
  have hready : a.status ≠ some "ready" := by
    rcases specNonTerminal_strings hnt2 with h | h <;> simp [h]
  have hpoll : pollPhase ticket aid responses =
      ⟨.error .processingTimeout, 300, evs⟩ := by
    unfold pollPhase
    rw [show maxPollAttempts = 300 from rfl, heq]
    simp [hready]
  rw [uploadToLivepeer_poll ticket tus put responses aid ha hstep, hpoll]
  exact ⟨rfl, rfl⟩

/-- Witness for C4 at concrete inputs: every poll answers `processing`. -/
theorem uploader_timeout_after_300_witness :
    ((⟨some "a1", none, some "tus", none, none⟩ : UploadTicket).assetId
        = some "a1") ∧
    ((uploadStep ⟨some "a1", none, some "tus", none, none⟩
        (.success []) .ok).result = .ok ()) ∧
    (∀ i, i < 300 →
      ∃ a, (fun _ : Nat =>
          (.ok ⟨some "processing", none, none, none, none⟩ :
            Except String AssetStatus)) i = .ok a ∧ specNonTerminal a) ∧
    ((uploadToLivepeer (.ok ⟨some "a1", none, some "tus", none, none⟩)
        (.success []) .ok
        (fun _ => .ok ⟨some "processing", none, none, none, none⟩)).result =
      .error .processingTimeout ∧
    (uploadToLivepeer (.ok ⟨some "a1", none, some "tus", none, none⟩)
        (.success []) .ok
        (fun _ => .ok ⟨some "processing", none, none, none, none⟩)).polls = 300) :=
  ⟨rfl, rfl,
    fun _ _ => ⟨⟨some "processing", none, none, none, none⟩, rfl,
      ⟨PStatus.processing, by decide, by decide, rfl⟩⟩,
    uploader_timeout_after_300 _ _ _ _ "a1" rfl rfl
      (fun _ _ => ⟨⟨some "processing", none, none, none, none⟩, rfl,
        ⟨PStatus.processing, by decide, by decide, rfl⟩⟩)⟩

/-- Claim C5: for every poll-status sequence whose first terminal status is a
`failed` response at position `k` (0-based, within the 300-attempt bound,
preceded only by non-terminal statuses), the uploader rejects immediately
with the processing-failed error carrying the server-reported reason, after
exactly `k + 1` polls — no further polls follow the `failed` response. -/
theorem uploader_failed_rejects (ticket : UploadTicket) (tus : TusOutcome)
    (put : PutOutcome) (responses : Nat → Except String AssetStatus)
    (aid reason : String) (k : Nat)
    (ha : ticket.assetId = some aid)
    (hstep : (uploadStep ticket tus put).result = .ok ())
    (hk : k < 300)
    (hpre : ∀ i, i < k → ∃ a, responses i = .ok a ∧ specNonTerminal a)
    (hfail : ∃ a, responses k = .ok a ∧ a.status = some "failed" ∧
      a.errorMessage = some reason) :
    (uploadToLivepeer (.ok ticket) tus put responses).result =
      .error (.processingFailed reason) ∧
    (uploadToLivepeer (.ok ticket) tus put responses).polls = k + 1 := by
  obtain ⟨evs, heq⟩ :=
    pollLoop_failed_at ticket aid responses reason k 300 0 false none hk
      (by intro i hi; simpa using hpre i hi)
      (by simpa using hfail)
  have hpoll : pollPhase ticket aid responses =
      ⟨.error (.processingFailed reason), k + 1, evs⟩ := by
    unfold pollPhase
    rw [show maxPollAttempts = 300 from rfl, heq]
  rw [uploadToLivepeer_poll ticket tus put responses aid ha hstep, hpoll]
  exact ⟨rfl, rfl⟩

/-- Witness for C5 at concrete inputs: `queued` at attempt 0, `failed` with
reason "bad input" at attempt 1; the uploader rejects after 2 polls. -/
theorem uploader_failed_rejects_witness :
    ((⟨some "a1", none, some "tus", none, none⟩ : UploadTicket).assetId
        = some "a1") ∧
    ((uploadStep ⟨some "a1", none, some "tus", none, none⟩
        (.success []) .ok).result = .ok ()) ∧
    (1 : Nat) < 300 ∧
    ((uploadToLivepeer (.ok ⟨some "a1", none, some "tus", none, none⟩)
        (.success []) .ok
        (fun i => .ok (if i = 0 then ⟨some "queued", none, none, none, none⟩
          else ⟨some "failed", none, none, some "bad input", none⟩))).result =
      .error (.processingFailed "bad input") ∧
    (uploadToLivepeer (.ok ⟨some "a1", none, some "tus", none, none⟩)
        (.success []) .ok
        (fun i => .ok (if i = 0 then ⟨some "queued", none, none, none, none⟩
          else ⟨some "failed", none, none, some "bad input", none⟩))).polls
      = 1 + 1) :=
  ⟨rfl, rfl, by omega,
    uploader_failed_rejects _ _ _ _ "a1" "bad input" 1 rfl rfl (by omega)
      (by
        intro i hi
        refine ⟨⟨some "queued", none, none, none, none⟩, ?_, ?_⟩
        · simp only [show i = 0 by omega, reduceIte]
        · exact ⟨PStatus.queued, by decide, by decide, rfl⟩)
      ⟨⟨some "failed", none, none, some "bad input", none⟩, by norm_num, rfl, rfl⟩⟩

/-- Claim C7: the transfer step of the uploader (1) attempts the resumable
TUS upload exactly when the ticket offers a resumable endpoint; (2) when the
TUS upload succeeds, it reports the banner plus one byte-level progress
report per TUS progress event to the caller and no PUT is attempted; (3)
when the resumable upload is unavailable (no endpoint) or fails, it falls
back to a single direct PUT write whenever the ticket offers one, succeeding
if the PUT succeeds and failing with an upload error if the PUT fails; and
(4) when neither the resumable upload nor the direct write succeeds, the
step fails with an upload error. -/
theorem upload_tus_fallback (ticket : UploadTicket) (tus : TusOutcome)
    (put : PutOutcome) :
    ((uploadStep ticket tus put).tusAttempted = ticket.tusEndpoint.isSome) ∧
    (∀ endp, ticket.tusEndpoint = some endp → ∀ evs, tus = .success evs →
      (uploadStep ticket tus put).result = .ok () ∧
      (uploadStep ticket tus put).putAttempted = false ∧
      (uploadStep ticket tus put).reports =
        uploadingBanner :: tusProgressReports evs) ∧
    (∀ u, ticket.uploadUrl = some u →
      (ticket.tusEndpoint = none ∨ ∃ evs msg, tus = .failure evs msg) →
      (uploadStep ticket tus put).putAttempted = true ∧
      (put = .ok → (uploadStep ticket tus put).result = .ok ()) ∧
      (∀ st txt, put = .httpError st txt →
        (uploadStep ticket tus put).result = .error (.uploadPut st txt) ∧
        (UploadError.uploadPut st txt).isUploadFailure = true)) ∧
    ((ticket.tusEndpoint = none ∨ ∃ evs msg, tus = .failure evs msg) →
      (ticket.uploadUrl = none ∨ ∃ st txt, put = .httpError st txt) →
      ∃ e, (uploadStep ticket tus put).result = .error e ∧
        e.isUploadFailure = true) := by
  refine ⟨?_, ?_, ?_, ?_⟩
  · cases he : ticket.tusEndpoint with
    | none =>
      cases hu : ticket.uploadUrl with
      | none => simp [uploadStep, putStep, he, hu]
      | some u => cases put <;> simp [uploadStep, putStep, he, hu]
    | some endp =>
      cases tus with
      | success evs => simp [uploadStep, he]
      | failure evs msg =>
        cases hu : ticket.uploadUrl with
        | none => simp [uploadStep, putStep, he, hu]
        | some u => cases put <;> simp [uploadStep, putStep, he, hu]
  · intro endp he evs htus
    subst htus
    simp [uploadStep, he]
  · intro u hu hfb
    rcases hfb with he | ⟨evs, msg, htus⟩
    · cases put <;>
        simp [uploadStep, putStep, he, hu, UploadError.isUploadFailure]
    · subst htus
      cases he : ticket.tusEndpoint with
      | none =>
        cases put <;>
          simp [uploadStep, putStep, he, hu, UploadError.isUploadFailure]
      | some endp =>
        cases put <;>
          simp [uploadStep, putStep, he, hu, UploadError.isUploadFailure]
  · intro hfb hput
    have hres : ∃ tusAttempted reports,
        uploadStep ticket tus put = putStep ticket put tusAttempted reports := by
      rcases hfb with he | ⟨evs, msg, htus⟩
      · exact ⟨false, [], by simp [uploadStep, he]⟩
      · subst htus
        cases he : ticket.tusEndpoint with
        | none => exact ⟨false, [], by simp [uploadStep, he]⟩
        | some endp =>
          exact ⟨true, uploadingBanner :: tusProgressReports evs,
            by simp [uploadStep, he]⟩
    obtain ⟨ta, reps, heq⟩ := hres
    rw [heq]
    rcases hput with hu | ⟨st, txt, hp⟩
    · simp [putStep, hu, UploadError.isUploadFailure]
    · subst hp
      cases hu : ticket.uploadUrl with
      | none => simp [putStep, hu, UploadError.isUploadFailure]
      | some u => exact ⟨.uploadPut st txt, by simp [putStep, hu], rfl⟩

/-- Witness for C7 at concrete inputs: a ticket offering both endpoints, a
failing TUS upload and a failing PUT; conjuncts instantiated and their
hypotheses discharged. -/
theorem upload_tus_fallback_witness :
    ((uploadStep ⟨some "a1", none, some "tus", some "putUrl", none⟩
        (.failure [(5, 10)] "tus down") (.httpError 500 "boom")).tusAttempted
      = (some "tus" : Option String).isSome) ∧
    ((uploadStep ⟨some "a1", none, some "tus", some "putUrl", none⟩
        (.failure [(5, 10)] "tus down") (.httpError 500 "boom")).putAttempted
      = true) ∧
    ((uploadStep ⟨some "a1", none, some "tus", some "putUrl", none⟩
        (.failure [(5, 10)] "tus down") (.httpError 500 "boom")).result =
      .error (.uploadPut 500 "boom")) ∧
    (∃ e, (uploadStep ⟨some "a1", none, some "tus", some "putUrl", none⟩
        (.failure [(5, 10)] "tus down") (.httpError 500 "boom")).result =
      .error e ∧ e.isUploadFailure = true) :=
  ⟨(upload_tus_fallback ⟨some "a1", none, some "tus", some "putUrl", none⟩
      (.failure [(5, 10)] "tus down") (.httpError 500 "boom")).1,
    ((upload_tus_fallback ⟨some "a1", none, some "tus", some "putUrl", none⟩
      (.failure [(5, 10)] "tus down") (.httpError 500 "boom")).2.2.1 "putUrl"
      rfl (Or.inr ⟨[(5, 10)], "tus down", rfl⟩)).1,
    (((upload_tus_fallback ⟨some "a1", none, some "tus", some "putUrl", none⟩
      (.failure [(5, 10)] "tus down") (.httpError 500 "boom")).2.2.1 "putUrl"
      rfl (Or.inr ⟨[(5, 10)], "tus down", rfl⟩)).2.2 500 "boom" rfl).1,
    (upload_tus_fallback ⟨some "a1", none, some "tus", some "putUrl", none⟩
      (.failure [(5, 10)] "tus down") (.httpError 500 "boom")).2.2.2
      (Or.inr ⟨[(5, 10)], "tus down", rfl⟩) (Or.inr ⟨500, "boom", rfl⟩)⟩

/-! ## Daydream stream creation (`src/lib/daydream.ts`)

`createDaydreamStream` creates the stream and then fires a background,
non-awaited `updateDaydreamPromptsWithRetry` for the initial parameters;
the retry helper retries "not ready" errors up to `maxRetries` times,
`delayMs` apart, and returns normally in every case. -/

/-- Character-list matching of a needle at the head of a haystack. -/
def startsWithChars : List Char → List Char → Bool
  | [], _ => true
  | _ :: _, [] => false
  | n :: ns, h :: hs => n == h && startsWithChars ns hs

/-- Character-list substring containment. -/
def hasSubChars (needle : List Char) : List Char → Bool
  | [] => needle.isEmpty
  | h :: hs => startsWithChars needle (h :: hs) || hasSubChars needle hs

/-- JS `hay.includes(needle)`. -/
def strContains (hay needle : String) : Bool :=
  hasSubChars needle.toList hay.toList

/-- JS `a || b` over strings (an empty string is falsy). -/
def jsOr (a b : String) : String := if a = "" then b else a

/-- An error caught by `updateDaydreamPromptsWithRetry`: the places the
source inspects — `error?.message`, `error?.error?.error`, and
`JSON.stringify(error)`. -/
structure DdUpdateError where
  message : Option String
  nested : Option String
  jsonStr : String
deriving DecidableEq

/-- The source's `const errorMessage = error?.message || error?.error?.error || errorStr`. -/
def ddErrorMessage (e : DdUpdateError) : String :=
  jsOr (e.message.getD "") (jsOr (e.nested.getD "") e.jsonStr)

/-- The source's `isNotReadyError` check: four `includes` probes over
`errorMessage` and `errorStr`. -/
def isNotReadyError (e : DdUpdateError) : Bool :=
  strContains (ddErrorMessage e) "not ready" ||
  strContains (ddErrorMessage e) "Stream not ready" ||
  strContains e.jsonStr "not ready" ||
  strContains e.jsonStr "Stream not ready"

/-- How the retry loop returned (always normally — the enum has no thrown
case because every `return` in the source is a plain return): success after
`attemptsUsed` attempts, giving up on a non-retryable error (logged, stream
keeps defaults), or exhausting all retries (logged warning, stream keeps
defaults). -/
inductive RetryResult
  | succeeded (attemptsUsed : Nat)
  | gaveUpNonRetryable (attemptsUsed : Nat)
  | exhausted
deriving DecidableEq

/-- Observable outcome of `updateDaydreamPromptsWithRetry`: the returned
value — `.error` would model an exception propagating to the caller, which
the theorems show never happens — and the list of waits performed
(`setTimeout(resolve, delayMs)` before each attempt except the first). -/
structure RetryOut where
  result : Except DdUpdateError RetryResult
  delays : List Nat
deriving DecidableEq

/-- The `for (let attempt = 0; attempt < maxRetries; attempt++)` loop of
`updateDaydreamPromptsWithRetry`.  `attemptOutcome i` is the outcome of the
i-th `updateDaydreamPrompts` call; a "not ready" error continues to the next
iteration, any other error logs and returns, success returns. -/
def updateDaydreamPromptsWithRetryAux
    (attemptOutcome : Nat → Except DdUpdateError Unit) (delayMs : Nat) :
    Nat → Nat → RetryOut
  | _, 0 => ⟨.ok .exhausted, []⟩
  | attempt, fuel + 1 =>
    let ds := if 0 < attempt then [delayMs] else []
    match attemptOutcome attempt with
    | .ok _ => ⟨.ok (.succeeded (attempt + 1)), ds⟩
    | .error e =>
      if isNotReadyError e then
        let r := updateDaydreamPromptsWithRetryAux attemptOutcome delayMs
          (attempt + 1) fuel
        ⟨r.result, ds ++ r.delays⟩
      else
        ⟨.ok (.gaveUpNonRetryable (attempt + 1)), ds⟩

/-- Shallow embedding of `updateDaydreamPromptsWithRetry(streamId, params,
maxRetries = 10, delayMs = 1000)` (the stream id and params do not affect
the control flow modelled here; the per-attempt outcomes are the oracle). -/
def updateDaydreamPromptsWithRetry
    (attemptOutcome : Nat → Except DdUpdateError Unit)
    (maxRetries : Nat := 10) (delayMs : Nat := 1000) : RetryOut :=
  updateDaydreamPromptsWithRetryAux attemptOutcome delayMs 0 maxRetries

/-- The `DaydreamStream` record returned to the caller. -/
structure DaydreamStream where
  id : String
  output_playback_id : String
  whip_url : String
deriving DecidableEq

/-- Shallow embedding of `createDaydreamStream`.  `invokeResult` is the
outcome of the `daydream-stream` edge-function call (`.ok none` models a
response with no data).  When `initialParams` is provided the param update
runs in the background (fire and forget — `.catch(console.error)`): its
outcome is computed but never affects the returned value. -/
def createDaydreamStream (invokeResult : Except String (Option DaydreamStream))
    (hasInitialParams : Bool)
    (attemptOutcome : Nat → Except DdUpdateError Unit) :
    Except String DaydreamStream :=
  match invokeResult with
  | .error e => .error e
  | .ok none => .error "No stream data returned"
  | .ok (some s) =>
    let _background :=
      if hasInitialParams then some (updateDaydreamPromptsWithRetry attemptOutcome)
      else none
    .ok s

/-- The retry loop always returns normally, whatever the attempt outcomes. -/
lemma retryAux_never_throws (attemptOutcome : Nat → Except DdUpdateError Unit)
    (delayMs : Nat) :
    ∀ fuel attempt, ∃ r : RetryResult,
      (updateDaydreamPromptsWithRetryAux attemptOutcome delayMs attempt
        fuel).result = .ok r := by
  intro fuel
  induction fuel with
  | zero => exact fun _ => ⟨.exhausted, rfl⟩
  | succ fuel ih =>
    intro attempt
    unfold updateDaydreamPromptsWithRetryAux
    cases h : attemptOutcome attempt with
    | ok _ => exact ⟨.succeeded (attempt + 1), rfl⟩
    | error e =>
      by_cases hnr : isNotReadyError e
      · obtain ⟨r, hr⟩ := ih (attempt + 1)
        exact ⟨r, by simp [hnr, hr]⟩
      · exact ⟨.gaveUpNonRetryable (attempt + 1), by simp [hnr]⟩

/-- A run whose first `k` attempts fail "not ready" and whose `k`-th attempt
fails with a non-retryable error returns `gaveUpNonRetryable` after `k + 1`
attempts, having waited once before every attempt except a first at index 0. -/
lemma retryAux_gaveUp (attemptOutcome : Nat → Except DdUpdateError Unit)
    (delayMs : Nat) (e : DdUpdateError) (he : isNotReadyError e = false) :
    ∀ k fuel attempt, k < fuel →
    (∀ i, i < k → ∃ e2, attemptOutcome (attempt + i) = .error e2 ∧
      isNotReadyError e2 = true) →
    attemptOutcome (attempt + k) = .error e →
    updateDaydreamPromptsWithRetryAux attemptOutcome delayMs attempt fuel =
      ⟨.ok (.gaveUpNonRetryable (attempt + k + 1)),
        (if 0 < attempt then [delayMs] else []) ++ List.replicate k delayMs⟩ := by
  intro k
  induction k with
  | zero =>
    intro fuel attempt hk _ hlast
    obtain ⟨fuel2, rfl⟩ : ∃ f2, fuel = f2 + 1 := ⟨fuel - 1, by omega⟩
    rw [Nat.add_zero] at hlast
    unfold updateDaydreamPromptsWithRetryAux
    simp [hlast, he]
  | succ k ih =>
    intro fuel attempt hk hpre hlast
    obtain ⟨fuel2, rfl⟩ : ∃ f2, fuel = f2 + 1 := ⟨fuel - 1, by omega⟩
    obtain ⟨e2, h2, hnr2⟩ := hpre 0 (by omega)
    rw [Nat.add_zero] at h2
    have hpre2 : ∀ i, i < k → ∃ e3, attemptOutcome (attempt + 1 + i) = .error e3 ∧
        isNotReadyError e3 = true := by
      intro i hi
      have := hpre (i + 1) (by omega)
      rwa [show attempt + (i + 1) = attempt + 1 + i by omega] at this
    have hlast2 : attemptOutcome (attempt + 1 + k) = .error e := by
      rwa [show attempt + 1 + k = attempt + (k + 1) by omega]
    have hrec := ih fuel2 (attempt + 1) (by omega) hpre2 hlast2
    unfold updateDaydreamPromptsWithRetryAux
    rw [h2]
    simp only [hnr2, if_pos, reduceIte, hrec]
    refine congrArg₂ RetryOut.mk ?_ ?_
    · exact congrArg (fun n => Except.ok (RetryResult.gaveUpNonRetryable n))
        (by omega)
    · cases attempt with
      | zero => simp [List.replicate_succ]
      | succ n => simp [List.replicate_succ]

/-- A run whose attempts all fail "not ready" exhausts the fuel, waiting
once before every attempt except a first at index 0. -/
lemma retryAux_exhausted (attemptOutcome : Nat → Except DdUpdateError Unit)
    (delayMs : Nat) :
    ∀ fuel attempt,
    (∀ i, i < fuel → ∃ e2, attemptOutcome (attempt + i) = .error e2 ∧
      isNotReadyError e2 = true) →
    updateDaydreamPromptsWithRetryAux attemptOutcome delayMs attempt fuel =
      ⟨.ok .exhausted,
        if fuel = 0 then []
        else (if 0 < attempt then [delayMs] else []) ++
          List.replicate (fuel - 1) delayMs⟩ := by
  intro fuel
  induction fuel with
  | zero => intro attempt _; rfl
  | succ fuel ih =>
    intro attempt h
    obtain ⟨e2, h2, hnr2⟩ := h 0 (by omega)
    rw [Nat.add_zero] at h2
    have hrest : ∀ i, i < fuel → ∃ e3, attemptOutcome (attempt + 1 + i) = .error e3 ∧
        isNotReadyError e3 = true := by
      intro i hi
      have := h (i + 1) (by omega)
      rwa [show attempt + (i + 1) = attempt + 1 + i by omega] at this
    have hrec := ih (attempt + 1) hrest
    unfold updateDaydreamPromptsWithRetryAux
    rw [h2]
    simp only [hnr2, reduceIte, hrec]
    refine congrArg (RetryOut.mk (.ok .exhausted)) ?_
    cases fuel with
    | zero => simp
    | succ n =>
      cases attempt with
      | zero => simp [List.replicate_succ]
      | succ m => simp [List.replicate_succ]

/-- Claim C9: `createDaydreamStream` resolves with the created stream
regardless of the background initial-parameter update, and
`updateDaydreamPromptsWithRetry` never propagates an error to its caller:
(1) a successfully created stream is returned whatever the update attempts
do; (2) the retry helper always returns normally; (3) it retries only
"not ready" errors — a non-retryable error at attempt `k` (after `k`
"not ready" failures) makes it return normally after `k + 1` attempts and
`k` one-second waits; and (4) when all 10 attempts fail "not ready" it
returns normally after exhausting the retries (9 one-second waits between
the 10 attempts). -/
theorem create_stream_background_update (s : DaydreamStream)
    (hasParams : Bool) (attemptOutcome : Nat → Except DdUpdateError Unit) :
    createDaydreamStream (.ok (some s)) hasParams attemptOutcome = .ok s ∧
    (∃ r : RetryResult,
      (updateDaydreamPromptsWithRetry attemptOutcome).result = .ok r) ∧
    (∀ k e, k < 10 → isNotReadyError e = false →
      (∀ i, i < k → ∃ e2, attemptOutcome i = .error e2 ∧
        isNotReadyError e2 = true) →
      attemptOutcome k = .error e →
      updateDaydreamPromptsWithRetry attemptOutcome =
        ⟨.ok (.gaveUpNonRetryable (k + 1)), List.replicate k 1000⟩) ∧
    ((∀ i, i < 10 → ∃ e2, attemptOutcome i = .error e2 ∧
        isNotReadyError e2 = true) →
      updateDaydreamPromptsWithRetry attemptOutcome =
        ⟨.ok .exhausted, List.replicate 9 1000⟩) := by
  refine ⟨rfl, ?_, ?_, ?_⟩
  · exact retryAux_never_throws attemptOutcome 1000 10 0
  · intro k e hk he hpre hlast
    have := retryAux_gaveUp attemptOutcome 1000 e he k 10 0 hk
      (by intro i hi; simpa using hpre i hi) (by simpa using hlast)
    simpa [updateDaydreamPromptsWithRetry] using this
  · intro h
    have := retryAux_exhausted attemptOutcome 1000 10 0
      (by intro i hi; simpa using h i hi)
    simpa [updateDaydreamPromptsWithRetry] using this

/-- Witness for C9 at concrete inputs: a created stream with an
all-"not ready" oracle (exhaustion branch), and a second oracle failing
non-retryably at attempt 2 (give-up branch), with every hypothesis
discharged. -/
theorem create_stream_background_update_witness :
    (createDaydreamStream
        (.ok (some ⟨"st1", "pb1", "whip"⟩)) true
        (fun _ => .error ⟨some "Stream not ready yet", none, "err"⟩) =
      .ok ⟨"st1", "pb1", "whip"⟩) ∧
    (∃ r : RetryResult, (updateDaydreamPromptsWithRetry
        (fun _ => .error ⟨some "Stream not ready yet", none, "err"⟩)).result
      = .ok r) ∧
    (updateDaydreamPromptsWithRetry
        (fun _ => .error ⟨some "Stream not ready yet", none, "err"⟩) =
      ⟨.ok .exhausted, List.replicate 9 1000⟩) ∧
    (updateDaydreamPromptsWithRetry
        (fun i => if i < 2 then .error ⟨some "Stream not ready yet", none, "err"⟩
          else .error ⟨some "boom", none, "err"⟩) =
      ⟨.ok (.gaveUpNonRetryable (2 + 1)), List.replicate 2 1000⟩) :=
  ⟨(create_stream_background_update ⟨"st1", "pb1", "whip"⟩ true
      (fun _ => .error ⟨some "Stream not ready yet", none, "err"⟩)).1,
    (create_stream_background_update ⟨"st1", "pb1", "whip"⟩ true
      (fun _ => .error ⟨some "Stream not ready yet", none, "err"⟩)).2.1,
    (create_stream_background_update ⟨"st1", "pb1", "whip"⟩ true
      (fun _ => .error ⟨some "Stream not ready yet", none, "err"⟩)).2.2.2
      (fun _ _ => ⟨⟨some "Stream not ready yet", none, "err"⟩, rfl, by decide⟩),
    (create_stream_background_update ⟨"st1", "pb1", "whip"⟩ true
      (fun i => if i < 2 then .error ⟨some "Stream not ready yet", none, "err"⟩
        else .error ⟨some "boom", none, "err"⟩)).2.2.1 2
      ⟨some "boom", none, "err"⟩ (by omega) (by decide)
      (fun i hi =>
        ⟨⟨some "Stream not ready yet", none, "err"⟩, by simp [hi], by decide⟩)
      (by norm_num)⟩
